import Mathlib

/-!
Verification development for the RV32I mini-simulator (`code/main.py`):
instruction memory, data memory, register file, a single-stage core and a
five-stage pipelined core.  Every definition below is a shallow embedding of
the corresponding Python source; machine words are `Nat` with explicit
masking (`&&& 0xFFFFFFFF`), Python ints that may go negative are `Int`,
and code that can raise `ValueError` returns `Except String _`.
-/

set_option maxRecDepth 10000

/-- Characters `'0'`/`'1'`, used by the 8-bit-binary test
`all(ch in "01" for ch in s)` in `_byte_to_int` (main.py lines 32 and 70). -/
def isBinChar (c : Char) : Bool := c = '0' || c = '1'

/-- Value of a binary digit string, `int(s, 2)` on a string of 0/1 chars. -/
def binToNat (cs : List Char) : Nat :=
  cs.foldl (fun a c => 2 * a + (if c = '1' then 1 else 0)) 0

/-- Hex digit test on an already-lowercased character (Python `int(s,16)`
also accepts upper case, but `_byte_to_int` lowercases first). -/
def isHexChar (c : Char) : Bool := c.isDigit || ('a' ≤ c && c ≤ 'f')

/-- Numeric value of a (lowercased) hex digit. -/
def hexVal (c : Char) : Nat := if c.isDigit then c.toNat - 48 else c.toNat - 87

/-- Digits of a Python base-16 literal after the first digit: hex digits with
single underscores allowed between digits. -/
def hexCore : List Char → Nat → Option Nat
  | [], acc => some acc
  | '_' :: c :: rest, acc =>
      if isHexChar c then hexCore rest (16 * acc + hexVal c) else none
  | c :: rest, acc =>
      if isHexChar c then hexCore rest (16 * acc + hexVal c) else none

/-- A nonempty run of hex digits with single underscore separators. -/
def hexDigits (cs : List Char) : Option Nat :=
  match cs with
  | c :: rest => if isHexChar c then hexCore rest (hexVal c) else none
  | [] => none

/-- Models Python `int(s, 16)` on an already-stripped, already-lowercased
string: optional sign, optional `0x` prefix (an underscore may follow the
prefix), then hex digits with single underscore separators.  Returns `none`
exactly when CPython raises `ValueError`. -/
def pyInt16 (cs : List Char) : Option Int :=
  let signed : Int × List Char :=
    match cs with
    | '+' :: t => (1, t)
    | '-' :: t => (-1, t)
    | _ => (1, cs)
  let body : Option Nat :=
    match signed.2 with
    | '0' :: 'x' :: t =>
        (match t with
         | '_' :: u => hexDigits u
         | _ => hexDigits t)
    | _ => hexDigits signed.2
  body.map (fun n => signed.1 * n)

/-- Python `startswith("0x")` plus slice `s[2:]` (main.py lines 35-36, 73-74). -/
def stripHexMark (cs : List Char) : List Char :=
  match cs with
  | '0' :: 'x' :: rest => rest
  | _ => cs

/-- The 8-bit-binary shortcut test of `_byte_to_int`: every char in "01" and
length exactly 8. -/
def bin8 (s : String) : Bool := s.data.all isBinChar && s.length == 8

/-- Python `str.strip()`: drop whitespace from both ends (modelled on
`List Char` so that it reduces inside the kernel; `Char.isWhitespace` covers
the ASCII whitespace that can occur in the input files). -/
def pyStrip (s : String) : String :=
  ⟨((s.data.dropWhile Char.isWhitespace).reverse.dropWhile Char.isWhitespace).reverse⟩

/-- Embeds `InsMem._byte_to_int` / `DataMem._byte_to_int` (two identical
copies, main.py lines 27-37 and 65-75): empty input is 0; an 8-char binary
string is parsed base 2; otherwise the string is lowercased, a leading `0x`
is removed and the rest is given to `int(_, 16)`, whose `ValueError` we model
as `Except.error`; the result is masked to one byte (`& 0xFF`, which on a
negative Python int is mod 256). -/
def byteToInt (s : String) : Except String Nat :=
  if s = "" then .ok 0
  else
    let t := pyStrip s
    if bin8 t then .ok (binToNat t.data &&& 0xFF)
    else
      match pyInt16 (stripHexMark (t.data.map Char.toLower)) with
      | some v => .ok ((v % 256).toNat)
      | none => .error "invalid literal for int() with base 16"

/-- One byte of a word fetch (body of the `for i in range(4)` loop in
`InsMem.readInstr` / `DataMem.readInstr`, main.py lines 42-48 and 80-86):
an index below 0 or past the end of the byte list contributes 0, otherwise
the stored line is parsed. -/
def memByte (mem : List String) (idx : Int) : Except String Nat :=
  if idx < 0 ∨ (mem.length : Int) ≤ idx then .ok 0
  else byteToInt (mem.getD idx.toNat "")

/-- Embeds `InsMem.readInstr` and `DataMem.readInstr` (identical big-endian
32-bit fetches, main.py lines 39-49 and 77-87), with the 4-iteration loop
unrolled: `val = (val << 8) | (b & 0xFF)` four times, then `& 0xFFFFFFFF`. -/
def readInstr (mem : List String) (a : Int) : Except String Nat := do
  let b0 ← memByte mem a
  let b1 ← memByte mem (a + 1)
  let b2 ← memByte mem (a + 2)
  let b3 ← memByte mem (a + 3)
  pure ((((((((0 <<< 8) ||| (b0 &&& 0xFF)) <<< 8) ||| (b1 &&& 0xFF)) <<< 8)
      ||| (b2 &&& 0xFF)) <<< 8 ||| (b3 &&& 0xFF)) &&& 0xFFFFFFFF)

/-- Bit `i` of byte `b` as a character, for Python `format(b, "08b")`. -/
def bitChar (b i : Nat) : Char := if (b >>> i) &&& 1 = 1 then '1' else '0'

/-- Python `format(b, "08b")` for `b < 256`: 8-character zero-padded binary
string (main.py line 100 stores bytes in this form; line 98 appends
"00000000" when extending). -/
def format08b (b : Nat) : String :=
  ⟨[bitChar b 7, bitChar b 6, bitChar b 5, bitChar b 4,
    bitChar b 3, bitChar b 2, bitChar b 1, bitChar b 0]⟩

/-- The `while idx >= len(self.DMem): self.DMem.append("00000000")` loop of
`DataMem.writeDataMem` (main.py lines 97-98): pad with zero-byte lines until
the length is at least `n`. -/
def padTo (mem : List String) (n : Nat) : List String :=
  mem ++ List.replicate (n - mem.length) "00000000"

/-- One iteration of the store loop in `DataMem.writeDataMem` (main.py lines
93-100): a negative index is skipped (`continue`), otherwise the list is
extended to cover `idx` and the byte line is overwritten. -/
def writeByteAt (mem : List String) (idx : Int) (s : String) : List String :=
  if idx < 0 then mem
  else (padTo mem (idx.toNat + 1)).set idx.toNat s

/-- Embeds `DataMem.writeDataMem` (main.py lines 89-100): the word is masked,
split into four bytes `[wd>>24, wd>>16, wd>>8, wd]` (most significant byte
first) and stored at `Address`, `Address+1`, `Address+2`, `Address+3`. -/
def writeDataMem (mem : List String) (a : Int) (w : Nat) : List String :=
  let wd := w &&& 0xFFFFFFFF
  let m0 := writeByteAt mem a (format08b ((wd >>> 24) &&& 0xFF))
  let m1 := writeByteAt m0 (a + 1) (format08b ((wd >>> 16) &&& 0xFF))
  let m2 := writeByteAt m1 (a + 2) (format08b ((wd >>> 8) &&& 0xFF))
  writeByteAt m2 (a + 3) (format08b (wd &&& 0xFF))

/-- Embeds `DataMem.__init__` (main.py lines 54-63): the input lines are
stripped and zero-padded to `MemSize = 1000` bytes. -/
def dmemInit (lines : List String) : List String :=
  padTo (lines.map pyStrip) 1000

/-- Embeds `DataMem.outputDataMem` (main.py lines 102-107): the dump file
holds exactly the live byte lines, one per line. -/
def outputDataMem (mem : List String) : List String := mem

/-- Embeds `RegisterFile.readRF` (main.py lines 119-123): out-of-range
indices read as 0, otherwise the register value masked to 32 bits. -/
def readRF (rf : List Nat) (a : Int) : Nat :=
  if a < 0 ∨ 32 ≤ a then 0
  else rf.getD a.toNat 0 &&& 0xFFFFFFFF

/-- Embeds `RegisterFile.writeRF` (main.py lines 125-131): writes to register
0 and out-of-range writes are dropped, others store the masked value. -/
def writeRF (rf : List Nat) (a : Int) (d : Nat) : List Nat :=
  if a = 0 then rf
  else if a < 0 ∨ 32 ≤ a then rf
  else rf.set a.toNat (d &&& 0xFFFFFFFF)

/-- Embeds `sign_extend` (main.py lines 176-185).  The Python function is
called both on non-negative bitfields and (in the five-stage EX stage) on a
possibly negative immediate, so the argument is `Int`; `value & mask` on a
Python int is `emod` by `2^bits`. -/
def signExtend (value : Int) (bits : Nat) : Int :=
  let valueMasked := value % (2 ^ bits : Nat)
  if (2 ^ (bits - 1) : Nat) ≤ valueMasked then valueMasked - (2 ^ bits : Nat)
  else valueMasked

/-- Python `x & 0xFFFFFFFF` on a possibly negative int: mod `2^32`. -/
def mask32 (x : Int) : Nat := (x % 4294967296).toNat

/-- Shared safety cap `Core.max_cycles` (main.py line 174): both cores use
100000. -/
def maxCycles : Nat := 100000

/-- Architectural state of the single-stage core: `IF.PC`/`IF.nop`, the
register file and data memory it owns, and the `Core` counters.  `snapshots`
records the `printState` calls as `(cycle, IF.PC, IF.nop)` triples (the
`StateResult_SS.txt` blocks, main.py lines 316-322). -/
structure SSState where
  pc : Nat
  nop : Bool
  rf : List Nat
  dmem : List String
  cycle : Nat
  halted : Bool
  retired : Nat
  snapshots : List (Nat × Nat × Bool)
  deriving Repr

/-- Execute section of `SingleStageCore.step` (main.py lines 238-297): decode
the immediates, run the opcode dispatch chain and return
`(write_back_enable, write_back_data, nextPC, dmem')`.  The LW memory read
can raise, hence `Except`. -/
def ssExec (dmem : List String) (PC instr rs1v rs2v : Nat) :
    Except String (Bool × Nat × Nat × List String) :=
  let opcode := instr &&& 0x7f
  let funct3 := (instr >>> 12) &&& 0x7
  let funct7 := (instr >>> 25) &&& 0x7f
  let immI : Int := signExtend ((instr >>> 20) &&& 0xFFF : Nat) 12
  let immS : Int := signExtend (((instr >>> 25) <<< 5) ||| ((instr >>> 7) &&& 0x1F) : Nat) 12
  let immB : Int := signExtend ((((instr >>> 31) &&& 0x1) <<< 12) ||| (((instr >>> 25) &&& 0x3F) <<< 5)
      ||| (((instr >>> 8) &&& 0xF) <<< 1) ||| (((instr >>> 7) &&& 0x1) <<< 11) : Nat) 13
  let immJ : Int := signExtend ((((instr >>> 31) &&& 0x1) <<< 20) ||| (((instr >>> 12) &&& 0xFF) <<< 12)
      ||| (((instr >>> 20) &&& 0x1) <<< 11) ||| (((instr >>> 21) &&& 0x3FF) <<< 1) : Nat) 21
  let nextPC0 := (PC + 4) &&& 0xFFFFFFFF
  if opcode = 0x33 then
    if funct3 = 0x0 ∧ funct7 = 0x00 then .ok (true, (rs1v + rs2v) &&& 0xFFFFFFFF, nextPC0, dmem)
    else if funct3 = 0x0 ∧ funct7 = 0x20 then .ok (true, mask32 ((rs1v : Int) - (rs2v : Int)), nextPC0, dmem)
    else if funct3 = 0x4 then .ok (true, (rs1v ^^^ rs2v) &&& 0xFFFFFFFF, nextPC0, dmem)
    else if funct3 = 0x6 then .ok (true, (rs1v ||| rs2v) &&& 0xFFFFFFFF, nextPC0, dmem)
    else if funct3 = 0x7 then .ok (true, (rs1v &&& rs2v) &&& 0xFFFFFFFF, nextPC0, dmem)
    else .ok (false, 0, nextPC0, dmem)
  else if opcode = 0x13 then
    if funct3 = 0x0 then .ok (true, mask32 ((rs1v : Int) + immI), nextPC0, dmem)
    else if funct3 = 0x4 then .ok (true, (rs1v ^^^ mask32 immI) &&& 0xFFFFFFFF, nextPC0, dmem)
    else if funct3 = 0x6 then .ok (true, (rs1v ||| mask32 immI) &&& 0xFFFFFFFF, nextPC0, dmem)
    else if funct3 = 0x7 then .ok (true, (rs1v &&& mask32 immI) &&& 0xFFFFFFFF, nextPC0, dmem)
    else .ok (false, 0, nextPC0, dmem)
  else if opcode = 0x03 ∧ funct3 = 0x2 then
    match readInstr dmem (mask32 ((rs1v : Int) + immI) : Nat) with
    | .error e => .error e
    | .ok mv => .ok (true, mv &&& 0xFFFFFFFF, nextPC0, dmem)
  else if opcode = 0x23 ∧ funct3 = 0x2 then
    .ok (false, 0, nextPC0, writeDataMem dmem (mask32 ((rs1v : Int) + immS) : Nat) rs2v)
  else if opcode = 0x63 then
    if funct3 = 0x0 ∧ rs1v = rs2v then .ok (false, 0, mask32 ((PC : Int) + immB), dmem)
    else if funct3 = 0x1 ∧ rs1v ≠ rs2v then .ok (false, 0, mask32 ((PC : Int) + immB), dmem)
    else .ok (false, 0, nextPC0, dmem)
  else if opcode = 0x6f then
    .ok (true, (PC + 4) &&& 0xFFFFFFFF, mask32 ((PC : Int) + immJ), dmem)
  else .ok (false, 0, nextPC0, dmem)

/-- Embeds `SingleStageCore.step` (main.py lines 200-314).  Three paths:
PC past the end of IMEM (graceful stop, one snapshot), HALT opcode 0x7f
(two snapshots at consecutive cycles, PC pinned, one retirement), and the
normal path (execute, write back unless rd = 0, advance PC, one snapshot,
one retirement, safety stop at `maxCycles`). -/
def ssStep (imem : List String) (s : SSState) : Except String SSState :=
  let PC := s.pc
  if imem.length ≤ PC then
    .ok { s with
            nop := true
            halted := true
            cycle := s.cycle + 1
            snapshots := s.snapshots ++ [(s.cycle, PC, true)] }
  else
    match readInstr imem (PC : Int) with
    | .error e => .error e
    | .ok instr =>
      if instr &&& 0x7f = 0x7f then
        .ok { s with
                nop := true
                halted := true
                retired := s.retired + 1
                cycle := s.cycle + 2
                snapshots := s.snapshots ++ [(s.cycle, PC, true), (s.cycle + 1, PC, true)] }
      else
        let rd := (instr >>> 7) &&& 0x1f
        let rs1 := (instr >>> 15) &&& 0x1f
        let rs2 := (instr >>> 20) &&& 0x1f
        let rs1v := readRF s.rf (rs1 : Int)
        let rs2v := readRF s.rf (rs2 : Int)
        match ssExec s.dmem PC instr rs1v rs2v with
        | .error e => .error e
        | .ok (wbE, wbD, nPC, dm') =>
          let rf' := if wbE = true ∧ rd ≠ 0 then writeRF s.rf (rd : Int) wbD else s.rf
          .ok { pc := nPC
                nop := false
                rf := rf'
                dmem := dm'
                cycle := s.cycle + 1
                retired := s.retired + 1
                halted := s.halted || decide (maxCycles ≤ s.cycle + 1)
                snapshots := s.snapshots ++ [(s.cycle, nPC, false)] }

/-- Fresh register file: 32 zero registers (main.py line 116). -/
def initRF : List Nat := List.replicate 32 0

/-- Initial single-stage core state (main.py lines 163-174, 195-198). -/
def ssInit (dmem : List String) : SSState :=
  { pc := 0, nop := false, rf := initRF, dmem := dmem,
    cycle := 0, halted := false, retired := 0, snapshots := [] }

/-- The driver loop for one core (main.py lines 907-913): step while not
halted, with fuel to keep the recursion structural. -/
def ssRun : Nat → List String → SSState → Except String SSState
  | 0, _, s => .ok s
  | fuel + 1, imem, s =>
      if s.halted then .ok s
      else
        match ssStep imem s with
        | .error e => .error e
        | .ok s' => ssRun fuel imem s'

/-- IF latch of the five-stage core (`State.IF`, main.py line 152). -/
structure FSIF where
  nop : Bool
  pc : Nat
  fetchPC : Nat
  deriving Repr

/-- IF/ID latch (`State.ID`, main.py line 153). -/
structure FSID where
  nop : Bool
  instr : Nat
  pc : Nat
  deriving Repr

/-- ID/EX latch (`State.EX`, main.py lines 154-155).  The control fields
`rdMem`, `wrtMem`, `aluOp`, `wrtEnable` are kept as `Nat` 0/1 flags exactly
as the Python code stores ints and tests their truthiness. -/
structure FSEX where
  nop : Bool
  instr : Nat
  readData1 : Nat
  readData2 : Nat
  imm : Int
  rs : Nat
  rt : Nat
  wrtRegAddr : Nat
  isIType : Bool
  rdMem : Nat
  wrtMem : Nat
  aluOp : Nat
  wrtEnable : Nat
  pc : Nat
  isJal : Bool
  deriving Repr

/-- EX/MEM latch (`State.MEM`, main.py lines 156-157). -/
structure FSMEM where
  nop : Bool
  aluResult : Nat
  storeData : Nat
  rs : Nat
  rt : Nat
  wrtRegAddr : Nat
  rdMem : Nat
  wrtMem : Nat
  wrtEnable : Nat
  deriving Repr

/-- MEM/WB latch (`State.WB`, main.py line 158). -/
structure FSWB where
  nop : Bool
  wrtData : Nat
  rs : Nat
  rt : Nat
  wrtRegAddr : Nat
  wrtEnable : Nat
  deriving Repr

/-- `State()` default IF latch (main.py line 152). -/
def State0IF : FSIF := { nop := false, pc := 0, fetchPC := 0 }

/-- `State()` default ID latch (main.py line 153). -/
def State0ID : FSID := { nop := false, instr := 0, pc := 0 }

/-- `State()` default EX latch (main.py lines 154-155). -/
def State0EX : FSEX :=
  { nop := false, instr := 0, readData1 := 0, readData2 := 0, imm := 0,
    rs := 0, rt := 0, wrtRegAddr := 0, isIType := false, rdMem := 0,
    wrtMem := 0, aluOp := 0, wrtEnable := 0, pc := 0, isJal := false }

/-- EX bubble: every field zeroed, `nop = True` (set identically by the
stall block, the branch block and the ID-nop arm, main.py lines 612-626,
639-653, 749-763). -/
def bubbleEX : FSEX := { State0EX with nop := true }

/-- MEM bubble (main.py lines 477-485). -/
def bubbleMEM : FSMEM :=
  { nop := true, aluResult := 0, storeData := 0, rs := 0, rt := 0,
    wrtRegAddr := 0, rdMem := 0, wrtMem := 0, wrtEnable := 0 }

/-- WB bubble (main.py lines 368-373). -/
def bubbleWB : FSWB :=
  { nop := true, wrtData := 0, rs := 0, rt := 0, wrtRegAddr := 0, wrtEnable := 0 }

/-- Full state of the five-stage core: the five latches plus the per-core
register file, data memory and `Core` counters. -/
structure FSState where
  ifSt : FSIF
  idSt : FSID
  exSt : FSEX
  memSt : FSMEM
  wbSt : FSWB
  rf : List Nat
  dmem : List String
  cycle : Nat
  halted : Bool
  retired : Nat
  deriving Repr

/-- WB stage of `FiveStageCore.step` (main.py lines 345-347): write the
register file from MEM/WB when the latch is live, `RegWrite` is set and the
destination register is not x0. -/
def fsWBrf (s : FSState) : List Nat :=
  if s.wbSt.nop = false ∧ s.wbSt.wrtEnable ≠ 0 ∧ s.wbSt.wrtRegAddr ≠ 0 then
    writeRF s.rf (s.wbSt.wrtRegAddr : Int) s.wbSt.wrtData
  else s.rf

/-- MEM stage (main.py lines 351-373): load reads DMEM at the ALU result
(this parse can raise), store writes DMEM, otherwise the ALU result is
passed on; produces the next MEM/WB latch and the new data memory. -/
def fsMemStage (dmem : List String) (m : FSMEM) : Except String (FSWB × List String) :=
  if m.nop = false then
    if m.rdMem ≠ 0 then
      match readInstr dmem (m.aluResult : Int) with
      | .error e => .error e
      | .ok mv =>
          .ok ({ nop := false, wrtData := mv &&& 0xFFFFFFFF, rs := m.rs, rt := m.rt,
                 wrtRegAddr := m.wrtRegAddr, wrtEnable := m.wrtEnable }, dmem)
    else if m.wrtMem ≠ 0 then
      .ok ({ nop := false, wrtData := m.aluResult, rs := m.rs, rt := m.rt,
             wrtRegAddr := m.wrtRegAddr, wrtEnable := m.wrtEnable },
           writeDataMem dmem (m.aluResult : Int) m.storeData)
    else
      .ok ({ nop := false, wrtData := m.aluResult &&& 0xFFFFFFFF, rs := m.rs, rt := m.rt,
             wrtRegAddr := m.wrtRegAddr, wrtEnable := m.wrtEnable }, dmem)
  else .ok (bubbleWB, dmem)

/-- EX stage (main.py lines 375-485): operand selection with forwarding from
EX/MEM (non-load only; a load "forwards" nothing, lines 383-385, 389-391)
and from MEM/WB (blocked when EX/MEM already matches, lines 396-402), then
the ALU computation chain: the coarse `alu_op` block (405-421), the I-type
re-decode (424-435), the R-type re-decode (438-452), the load/store address
add (455-461, both immediate branches of the source are the same
expression), and the JAL link value (464-465). -/
def fsExStage (s : FSState) : FSMEM :=
  let ex := s.exSt
  let m := s.memSt
  let wb := s.wbSt
  let fwd1a :=
    if m.nop = false ∧ m.wrtEnable ≠ 0 ∧ m.wrtRegAddr = ex.rs ∧ ex.rs ≠ 0 then
      (if m.rdMem ≠ 0 then ex.readData1 else m.aluResult)
    else ex.readData1
  let fwd2a :=
    if m.nop = false ∧ m.wrtEnable ≠ 0 ∧ m.wrtRegAddr = ex.rt ∧ ex.rt ≠ 0 then
      (if m.rdMem ≠ 0 then ex.readData2 else m.aluResult)
    else ex.readData2
  let exRs1 :=
    if wb.nop = false ∧ wb.wrtEnable ≠ 0 ∧ wb.wrtRegAddr = ex.rs ∧ ex.rs ≠ 0 ∧
        ¬(m.nop = false ∧ m.wrtEnable ≠ 0 ∧ m.wrtRegAddr = ex.rs) then
      wb.wrtData
    else fwd1a
  let exRs2 :=
    if wb.nop = false ∧ wb.wrtEnable ≠ 0 ∧ wb.wrtRegAddr = ex.rt ∧ ex.rt ≠ 0 ∧
        ¬(m.nop = false ∧ m.wrtEnable ≠ 0 ∧ m.wrtRegAddr = ex.rt) then
      wb.wrtData
    else fwd2a
  if ex.nop = false then
    let alu0 : Nat :=
      if ex.isIType then
        (if ex.aluOp = 0 then mask32 ((exRs1 : Int) + ex.imm) else 0)
      else
        (if ex.aluOp = 0 then (exRs1 + exRs2) &&& 0xFFFFFFFF
         else if ex.aluOp = 1 then mask32 ((exRs1 : Int) - (exRs2 : Int))
         else 0)
    let alu1 : Nat :=
      if ex.isIType = true ∧ ex.rdMem = 0 then
        let funct3 := (ex.instr >>> 12) &&& 0x7
        let immI := signExtend ((ex.instr >>> 20) &&& 0xFFF : Nat) 12
        if funct3 = 0x0 then mask32 ((exRs1 : Int) + immI)
        else if funct3 = 0x4 then (exRs1 ^^^ mask32 immI) &&& 0xFFFFFFFF
        else if funct3 = 0x6 then (exRs1 ||| mask32 immI) &&& 0xFFFFFFFF
        else if funct3 = 0x7 then (exRs1 &&& mask32 immI) &&& 0xFFFFFFFF
        else alu0
      else alu0
    let alu2 : Nat :=
      if ex.isIType = false ∧ ex.rdMem = 0 ∧ ex.wrtMem = 0 then
        let funct3 := (ex.instr >>> 12) &&& 0x7
        let funct7 := (ex.instr >>> 25) &&& 0x7f
        if funct3 = 0x0 then
          (if funct7 = 0x00 then (exRs1 + exRs2) &&& 0xFFFFFFFF
           else if funct7 = 0x20 then mask32 ((exRs1 : Int) - (exRs2 : Int))
           else alu1)
        else if funct3 = 0x4 then (exRs1 ^^^ exRs2) &&& 0xFFFFFFFF
        else if funct3 = 0x6 then (exRs1 ||| exRs2) &&& 0xFFFFFFFF
        else if funct3 = 0x7 then (exRs1 &&& exRs2) &&& 0xFFFFFFFF
        else alu1
      else alu1
    let alu3 : Nat :=
      if ex.rdMem ≠ 0 ∨ ex.wrtMem ≠ 0 then
        let imm := if ex.imm < 0x800 then signExtend ex.imm 12 else ex.imm
        mask32 ((exRs1 : Int) + imm)
      else alu2
    let alu4 : Nat := if ex.isJal then (ex.pc + 4) &&& 0xFFFFFFFF else alu3
    { nop := false, aluResult := alu4, storeData := exRs2, rs := ex.rs, rt := ex.rt,
      wrtRegAddr := ex.wrtRegAddr, rdMem := ex.rdMem, wrtMem := ex.wrtMem,
      wrtEnable := ex.wrtEnable }
  else bubbleMEM

/-- Load-use hazard detection of the ID stage (main.py lines 490-500): the
*MEM* latch holds the load whose destination register is compared against
rs1/rs2 of the instruction sitting in ID. -/
def fsLoadUseHazard (s : FSState) : Bool :=
  if s.memSt.nop = false ∧ s.memSt.rdMem ≠ 0 ∧ s.memSt.wrtEnable ≠ 0 ∧ s.idSt.nop = false then
    let rs1 := (s.idSt.instr >>> 15) &&& 0x1f
    let rs2 := (s.idSt.instr >>> 20) &&& 0x1f
    decide ((s.memSt.wrtRegAddr = rs1 ∧ rs1 ≠ 0) ∨ (s.memSt.wrtRegAddr = rs2 ∧ rs2 ≠ 0))
  else false

/-- The early EX ALU recomputation used for EX-to-ID forwarding (main.py
lines 524-556), computed from the *unforwarded* EX operand latches. -/
def fsEarlyExAlu (cex : FSEX) : Nat :=
  if cex.isIType then
    let exF3 := (cex.instr >>> 12) &&& 0x7
    let exImmI := signExtend ((cex.instr >>> 20) &&& 0xFFF : Nat) 12
    let v1 := cex.readData1
    if exF3 = 0x0 then mask32 ((v1 : Int) + exImmI)
    else if exF3 = 0x4 then (v1 ^^^ mask32 exImmI) &&& 0xFFFFFFFF
    else if exF3 = 0x6 then (v1 ||| mask32 exImmI) &&& 0xFFFFFFFF
    else if exF3 = 0x7 then (v1 &&& mask32 exImmI) &&& 0xFFFFFFFF
    else 0
  else
    let exF3 := (cex.instr >>> 12) &&& 0x7
    let exF7 := (cex.instr >>> 25) &&& 0x7f
    let v1 := cex.readData1
    let v2 := cex.readData2
    if exF3 = 0x0 then
      (if exF7 = 0x00 then (v1 + v2) &&& 0xFFFFFFFF
       else if exF7 = 0x20 then mask32 ((v1 : Int) - (v2 : Int))
       else 0)
    else if exF3 = 0x4 then (v1 ^^^ v2) &&& 0xFFFFFFFF
    else if exF3 = 0x6 then (v1 ||| v2) &&& 0xFFFFFFFF
    else if exF3 = 0x7 then (v1 &&& v2) &&& 0xFFFFFFFF
    else 0

/-- Branch / JAL resolution in the ID stage (main.py lines 502-607): computes
`(branch_taken, branch_target, jal_taken, jal_target)`.  The comparison
operands are read from the (post-WB) register file and forwarded from EX
(non-load, via `fsEarlyExAlu`), from MEM (non-load results, lines 564-572)
and from WB (blocked when EX or MEM already forwards, lines 574-584). -/
def fsBranchResolve (rf1 : List Nat) (s : FSState) : Bool × Nat × Bool × Nat :=
  let cid := s.idSt
  let cex := s.exSt
  let cmem := s.memSt
  let cwb := s.wbSt
  if cid.nop = false then
    let instr := cid.instr
    let opcode := instr &&& 0x7f
    let rs1 := (instr >>> 15) &&& 0x1f
    let rs2 := (instr >>> 20) &&& 0x1f
    let funct3 := (instr >>> 12) &&& 0x7
    let idRs1a := readRF rf1 (rs1 : Int)
    let idRs2a := readRF rf1 (rs2 : Int)
    let fwdEx : Bool := decide (cex.nop = false ∧ cex.wrtEnable ≠ 0 ∧ cex.rdMem = 0)
    let idRs1b :=
      if fwdEx = true ∧ cex.wrtRegAddr = rs1 ∧ rs1 ≠ 0 then fsEarlyExAlu cex else idRs1a
    let idRs2b :=
      if fwdEx = true ∧ cex.wrtRegAddr = rs2 ∧ rs2 ≠ 0 then fsEarlyExAlu cex else idRs2a
    let idRs1c :=
      if cmem.nop = false ∧ cmem.wrtEnable ≠ 0 ∧ cmem.wrtRegAddr = rs1 ∧ rs1 ≠ 0 ∧ cmem.rdMem = 0 then
        cmem.aluResult
      else idRs1b
    let idRs2c :=
      if cmem.nop = false ∧ cmem.wrtEnable ≠ 0 ∧ cmem.wrtRegAddr = rs2 ∧ rs2 ≠ 0 ∧ cmem.rdMem = 0 then
        cmem.aluResult
      else idRs2b
    let idRs1 :=
      if cwb.nop = false ∧ cwb.wrtEnable ≠ 0 ∧ cwb.wrtRegAddr = rs1 ∧ rs1 ≠ 0 ∧
          ¬(cex.nop = false ∧ cex.wrtEnable ≠ 0 ∧ cex.rdMem = 0 ∧ cex.wrtRegAddr = rs1) ∧
          ¬(cmem.nop = false ∧ cmem.wrtEnable ≠ 0 ∧ cmem.rdMem = 0 ∧ cmem.wrtRegAddr = rs1) then
        cwb.wrtData
      else idRs1c
    let idRs2 :=
      if cwb.nop = false ∧ cwb.wrtEnable ≠ 0 ∧ cwb.wrtRegAddr = rs2 ∧ rs2 ≠ 0 ∧
          ¬(cex.nop = false ∧ cex.wrtEnable ≠ 0 ∧ cex.rdMem = 0 ∧ cex.wrtRegAddr = rs2) ∧
          ¬(cmem.nop = false ∧ cmem.wrtEnable ≠ 0 ∧ cmem.rdMem = 0 ∧ cmem.wrtRegAddr = rs2) then
        cwb.wrtData
      else idRs2c
    if opcode = 0x63 then
      let immB := signExtend ((((instr >>> 31) &&& 0x1) <<< 12) ||| (((instr >>> 25) &&& 0x3F) <<< 5)
          ||| (((instr >>> 8) &&& 0xF) <<< 1) ||| (((instr >>> 7) &&& 0x1) <<< 11) : Nat) 13
      if funct3 = 0x0 ∧ idRs1 = idRs2 then (true, mask32 ((cid.pc : Int) + immB), false, 0)
      else if funct3 = 0x1 ∧ idRs1 ≠ idRs2 then (true, mask32 ((cid.pc : Int) + immB), false, 0)
      else (false, 0, false, 0)
    else if opcode = 0x6f then
      let immJ := signExtend ((((instr >>> 31) &&& 0x1) <<< 20) ||| (((instr >>> 12) &&& 0xFF) <<< 12)
          ||| (((instr >>> 20) &&& 0x1) <<< 11) ||| (((instr >>> 21) &&& 0x3FF) <<< 1) : Nat) 21
      (false, 0, true, mask32 ((cid.pc : Int) + immJ))
    else (false, 0, false, 0)
  else (false, 0, false, 0)

/-- The decode section of the ID stage (main.py lines 662-774), producing the
next IF/ID and ID/EX latches.

Transcription note: the writes to `nextState.ID` and `nextState.EX` made by
the stall block (lines 612-628) and the branch block (lines 635-653) are
dead stores in the source — this decode section assigns every field of both
latches again in each of its arms — so those blocks survive only in their
`nextState.IF` assignment (see `fsIdIfStage`).  The two arms here differ
subtly: the normal-decode arm advances ID only when the IF latch is live AND
no JAL was taken (line 737), while the ID-nop/branch arm checks only the IF
latch (line 765). -/
def fsDecode (imem : List String) (rf1 : List Nat) (s : FSState)
    (branchTaken jalTaken : Bool) : Except String (FSID × FSEX) :=
  let cif := s.ifSt
  let cid := s.idSt
  let cmem := s.memSt
  let cwb := s.wbSt
  if cid.nop = false ∧ branchTaken = false then
    let instr := cid.instr
    let opcode := instr &&& 0x7f
    let rd := (instr >>> 7) &&& 0x1f
    let funct3 := (instr >>> 12) &&& 0x7
    let rs1 := (instr >>> 15) &&& 0x1f
    let rs2 := (instr >>> 20) &&& 0x1f
    let funct7 := (instr >>> 25) &&& 0x7f
    let v1a := readRF rf1 (rs1 : Int)
    let v2a := readRF rf1 (rs2 : Int)
    let v1b :=
      if cmem.nop = false ∧ cmem.wrtEnable ≠ 0 ∧ cmem.wrtRegAddr = rs1 ∧ rs1 ≠ 0 ∧ cmem.rdMem = 0 then
        cmem.aluResult
      else v1a
    let v2b :=
      if cmem.nop = false ∧ cmem.wrtEnable ≠ 0 ∧ cmem.wrtRegAddr = rs2 ∧ rs2 ≠ 0 ∧ cmem.rdMem = 0 then
        cmem.aluResult
      else v2a
    let v1 :=
      if cwb.nop = false ∧ cwb.wrtEnable ≠ 0 ∧ cwb.wrtRegAddr = rs1 ∧ rs1 ≠ 0 ∧
          ¬(cmem.nop = false ∧ cmem.wrtEnable ≠ 0 ∧ cmem.wrtRegAddr = rs1) then
        cwb.wrtData
      else v1b
    let v2 :=
      if cwb.nop = false ∧ cwb.wrtEnable ≠ 0 ∧ cwb.wrtRegAddr = rs2 ∧ rs2 ≠ 0 ∧
          ¬(cmem.nop = false ∧ cmem.wrtEnable ≠ 0 ∧ cmem.wrtRegAddr = rs2) then
        cwb.wrtData
      else v2b
    let immI := signExtend ((instr >>> 20) &&& 0xFFF : Nat) 12
    let immS := signExtend (((instr >>> 25) <<< 5) ||| ((instr >>> 7) &&& 0x1F) : Nat) 12
    let isIType : Bool := decide (opcode = 0x13 ∨ opcode = 0x03)
    let rdMem : Bool := decide (opcode = 0x03 ∧ funct3 = 0x2)
    let wrtMem : Bool := decide (opcode = 0x23 ∧ funct3 = 0x2)
    let wrtEnable : Bool :=
      if opcode = 0x23 then false
      else decide (opcode = 0x33 ∨ opcode = 0x13 ∨ opcode = 0x03 ∨ opcode = 0x6f)
    let aluOp : Nat :=
      if opcode = 0x33 then (if funct3 = 0x0 ∧ funct7 = 0x20 then 1 else 0)
      else if opcode = 0x13 then (if funct3 = 0x4 ∨ funct3 = 0x6 ∨ funct3 = 0x7 then 2 else 0)
      else 0
    let ex' : FSEX :=
      { nop := false, instr := instr, readData1 := v1, readData2 := v2,
        imm := if isIType = true ∨ rdMem = true then immI else immS,
        rs := rs1, rt := rs2, wrtRegAddr := rd, isIType := isIType,
        rdMem := if rdMem then 1 else 0, wrtMem := if wrtMem then 1 else 0,
        aluOp := aluOp, wrtEnable := if wrtEnable then 1 else 0,
        pc := cid.pc, isJal := decide (opcode = 0x6f) }
    if cif.nop = false ∧ jalTaken = false then
      match readInstr imem (cif.fetchPC : Int) with
      | .error e => .error e
      | .ok fi => .ok ({ nop := false, instr := fi, pc := cif.fetchPC }, ex')
    else .ok ({ nop := true, instr := 0, pc := 0 }, ex')
  else
    if cif.nop = false then
      match readInstr imem (cif.fetchPC : Int) with
      | .error e => .error e
      | .ok fi => .ok ({ nop := false, instr := fi, pc := cif.fetchPC }, bubbleEX)
    else .ok ({ nop := true, instr := 0, pc := 0 }, bubbleEX)

/-- The IF stage (main.py lines 776-802), given the `nextState.IF` latch left
by the stall / branch / JAL blocks: skipped entirely on a load-use stall;
otherwise it records `fetch_PC`, stops on an out-of-range PC or a fetched
HALT (pinning the PC), and advances the PC by 4 unless a branch or JAL
already redirected it. -/
def fsIfStage (imem : List String) (s : FSState)
    (luh branchTaken jalTaken : Bool) (nx1IF : FSIF) : Except String FSIF :=
  let cif := s.ifSt
  if luh = false then
    if cif.nop = false then
      let PC := cif.pc
      if imem.length ≤ PC then
        .ok { nx1IF with fetchPC := PC, nop := true, pc := PC }
      else
        match readInstr imem (PC : Int) with
        | .error e => .error e
        | .ok instr =>
          if instr &&& 0x7f = 0x7f then
            .ok { nx1IF with fetchPC := PC, nop := true, pc := PC }
          else if branchTaken = false ∧ jalTaken = false then
            .ok { nx1IF with fetchPC := PC, pc := (PC + 4) &&& 0xFFFFFFFF, nop := false }
          else
            .ok { nx1IF with fetchPC := PC, nop := false }
    else .ok cif
  else .ok nx1IF

/-- ID stage plus IF stage of `FiveStageCore.step` (main.py lines 487-802):
hazard detection, branch/JAL resolution, the surviving `nextState.IF`
assignment of the stall/branch/JAL blocks (lines 609-659), the decode
section and the IF stage. -/
def fsIdIfStage (imem : List String) (rf1 : List Nat) (s : FSState) :
    Except String (FSIF × FSID × FSEX) :=
  let luh := fsLoadUseHazard s
  let res := fsBranchResolve rf1 s
  let branchTaken := res.1
  let branchTarget := res.2.1
  let jalTaken := res.2.2.1
  let jalTarget := res.2.2.2
  let nx1IF : FSIF :=
    if luh = true then s.ifSt
    else if branchTaken = true then { State0IF with pc := branchTarget, nop := false }
    else if jalTaken = true then { State0IF with pc := jalTarget, nop := false }
    else State0IF
  match fsDecode imem rf1 s branchTaken jalTaken with
  | .error e => .error e
  | .ok (nxID, nxEX) =>
    match fsIfStage imem s luh branchTaken jalTaken nx1IF with
    | .error e => .error e
    | .ok nxIF => .ok (nxIF, nxID, nxEX)

/-- Embeds `FiveStageCore.step` (main.py lines 340-819): the stages run in
reverse order WB, MEM, EX, ID, IF building the next-cycle latches from the
current ones; the core is halted once all five current latches are bubbles
(line 805) or the safety cap is reached (lines 817-819). -/
def fsStep (imem : List String) (s : FSState) : Except String FSState :=
  let rf1 := fsWBrf s
  let retired1 := if s.wbSt.nop = false then s.retired + 1 else s.retired
  match fsMemStage s.dmem s.memSt with
  | .error e => .error e
  | .ok (wb', dmem') =>
    let mem' := fsExStage s
    match fsIdIfStage imem rf1 s with
    | .error e => .error e
    | .ok (if', id', ex') =>
      let halted1 := if s.ifSt.nop && s.idSt.nop && s.exSt.nop && s.memSt.nop && s.wbSt.nop then true else s.halted
      .ok { ifSt := if', idSt := id', exSt := ex', memSt := mem', wbSt := wb',
            rf := rf1, dmem := dmem', cycle := s.cycle + 1, retired := retired1,
            halted := halted1 || decide (maxCycles ≤ s.cycle + 1) }

/-- Initial five-stage core state (`FiveStageCore.__init__`, main.py lines
327-338): only IF is live, the four downstream latches start as bubbles. -/
def fsInit (dmem : List String) : FSState :=
  { ifSt := { nop := false, pc := 0, fetchPC := 0 },
    idSt := { State0ID with nop := true },
    exSt := { State0EX with nop := true },
    memSt := { bubbleMEM with nop := true },
    wbSt := { bubbleWB with nop := true },
    rf := initRF, dmem := dmem, cycle := 0, halted := false, retired := 0 }

/-- Driver loop for the five-stage core (main.py lines 907-913). -/
def fsRun : Nat → List String → FSState → Except String FSState
  | 0, _, s => .ok s
  | fuel + 1, imem, s =>
      if s.halted then .ok s
      else
        match fsStep imem s with
        | .error e => .error e
        | .ok s' => fsRun fuel imem s'

/-! ### Concrete inputs used by the claim checks -/

/-- Four big-endian byte lines encoding one instruction word, the on-disk
`imem.txt` format (MSB at the lowest address). -/
def wordToBE (w : Nat) : List String :=
  [format08b ((w >>> 24) &&& 0xFF), format08b ((w >>> 16) &&& 0xFF),
   format08b ((w >>> 8) &&& 0xFF), format08b (w &&& 0xFF)]

/-- `ADDI x1, x1, 5 ; HALT` — a two-instruction program with no loads. -/
def imemAddiHalt : List String := wordToBE 0x00508093 ++ wordToBE 0x0000007F

/-- `LW x4, 0(x0) ; ADDI x5, x4, 1 ; HALT` — the load-use pattern. -/
def imemLoadUse : List String := wordToBE 0x00002203 ++ wordToBE 0x00120293 ++ wordToBE 0x0000007F

/-- A `dmem.txt` image whose word at address 0 is 7 (big-endian read). -/
def dmemLoadUse : List String := dmemInit ["00000000", "00000000", "00000000", "00000111"]

/-- A single HALT instruction. -/
def imemHalt : List String := wordToBE 0x0000007F

/-- A single instruction with the unsupported opcode 0x37 (LUI). -/
def imemUndef : List String := wordToBE 0x00000037

/-- An empty `dmem.txt`, padded to the 1000 zero bytes. -/
def dmemZero : List String := dmemInit []

/-- One single-stage step on the undefined-opcode program. -/
def ssUndefFinal : SSState := (ssStep imemUndef (ssInit dmemZero)).toOption.getD (ssInit dmemZero)

/-- One single-stage step on the HALT program. -/
def ssHaltFinal : SSState := (ssStep imemHalt (ssInit dmemZero)).toOption.getD (ssInit dmemZero)

/-- A single-stage state whose cycle counter stands at 9999. -/
def ssAt9999 : SSState := { ssInit dmemZero with cycle := 9999 }

/-- The state after stepping `ssAt9999` once (cycle counter 10000). -/
def ssAfter9999 : SSState := (ssStep imemUndef ssAt9999).toOption.getD ssAt9999

/-- A single-stage state whose cycle counter stands at 99999. -/
def ssAt99999 : SSState := { ssInit dmemZero with cycle := 99999 }

/-- The state after stepping `ssAt99999` once (cycle counter 100000). -/
def ssAfter99999 : SSState := (ssStep imemUndef ssAt99999).toOption.getD ssAt99999

/-- A five-stage state whose cycle counter stands at 99999. -/
def fsAt99999 : FSState := { fsInit dmemZero with cycle := 99999 }

/-- The state after stepping `fsAt99999` once. -/
def fsAfter99999 : FSState := (fsStep imemAddiHalt fsAt99999).toOption.getD fsAt99999

/-- One five-stage step from the initial state. -/
def fsFirstStep : FSState := (fsStep imemAddiHalt (fsInit dmemZero)).toOption.getD (fsInit dmemZero)


/-! ### Helper lemmas -/

instance : DecidableEq (Except String Nat)
  | .ok a, .ok b => decidable_of_iff (a = b) (by simp)
  | .error a, .error b => decidable_of_iff (a = b) (by simp)
  | .ok _, .error _ => isFalse (by simp)
  | .error _, .ok _ => isFalse (by simp)

theorem and_mask8 (x : Nat) : x &&& 0xFF = x % 256 := by
  have h : (0xFF : Nat) = 2 ^ 8 - 1 := by norm_num
  have h2 : (256 : Nat) = 2 ^ 8 := by norm_num
  rw [h, h2, Nat.and_pow_two_sub_one_eq_mod]

theorem and_mask32 (x : Nat) : x &&& 0xFFFFFFFF = x % 4294967296 := by
  have h : (0xFFFFFFFF : Nat) = 2 ^ 32 - 1 := by norm_num
  have h2 : (4294967296 : Nat) = 2 ^ 32 := by norm_num
  rw [h, h2, Nat.and_pow_two_sub_one_eq_mod]

theorem shl8_or (a b : Nat) (hb : b < 256) : (a <<< 8) ||| b = 256 * a + b := by
  have h : a <<< 8 = 2 ^ 8 * a := by rw [Nat.shiftLeft_eq]; ring
  have hb' : b < 2 ^ 8 := by simpa using hb
  rw [h, ← Nat.mul_add_lt_is_or hb' a]

/-- Parsing back a `format(b, "08b")` line recovers the byte. -/
theorem byteToInt_format08b : ∀ b < 256, byteToInt (format08b b) = .ok b := by decide

theorem padTo_length (mem : List String) (n : Nat) : (padTo mem n).length = max mem.length n := by
  simp [padTo]; omega

theorem padTo_getElem? (mem : List String) (n j : Nat) (h : j < mem.length) :
    (padTo mem n)[j]? = mem[j]? := by
  simp [padTo, List.getElem?_append_left h]

theorem writeByteAt_length (mem : List String) (i : Nat) (s : String) :
    (writeByteAt mem (i : Int) s).length = max mem.length (i + 1) := by
  unfold writeByteAt
  rw [if_neg (by omega)]
  simp [List.length_set, padTo_length]

theorem writeByteAt_getD_self (mem : List String) (i : Nat) (s : String) :
    (writeByteAt mem (i : Int) s).getD i "" = s := by
  unfold writeByteAt
  rw [if_neg (by omega)]
  have hlen : i < (padTo mem (((i : Int)).toNat + 1)).length := by
    rw [padTo_length]; omega
  simp only [List.getD_eq_getElem?_getD, Int.toNat_ofNat] at hlen ⊢
  rw [List.getElem?_set_self (by simpa using hlen)]
  rfl

theorem writeByteAt_getD_other (mem : List String) (i j : Nat) (s d : String)
    (hj : j < mem.length) (hne : j ≠ i) :
    (writeByteAt mem (i : Int) s).getD j d = mem.getD j d := by
  unfold writeByteAt
  rw [if_neg (by omega)]
  simp only [List.getD_eq_getElem?_getD, Int.toNat_ofNat]
  rw [List.getElem?_set_ne (by omega), padTo_getElem? mem _ j hj]

theorem memByte_in (mem : List String) (j : Nat) (h : j < mem.length) :
    memByte mem (j : Int) = byteToInt (mem.getD j "") := by
  unfold memByte
  rw [if_neg (by omega)]
  simp [Int.toNat_ofNat]

/-- `writeDataMem` written out as the four `writeByteAt` calls with the
index casts normalised to `Nat`. -/
theorem writeDataMem_eq_quad (mem : List String) (a w : Nat) :
    writeDataMem mem (a : Int) w =
      writeByteAt (writeByteAt (writeByteAt (writeByteAt mem (a : Int)
        (format08b (((w &&& 0xFFFFFFFF) >>> 24) &&& 0xFF)))
        ((a + 1 : Nat) : Int) (format08b (((w &&& 0xFFFFFFFF) >>> 16) &&& 0xFF)))
        ((a + 2 : Nat) : Int) (format08b (((w &&& 0xFFFFFFFF) >>> 8) &&& 0xFF)))
        ((a + 3 : Nat) : Int) (format08b ((w &&& 0xFFFFFFFF) &&& 0xFF)) := by
  unfold writeDataMem
  rfl

theorem quadWrite_length (mem : List String) (a : Nat) (s0 s1 s2 s3 : String) :
    (writeByteAt (writeByteAt (writeByteAt (writeByteAt mem (a : Int) s0)
      ((a + 1 : Nat) : Int) s1) ((a + 2 : Nat) : Int) s2) ((a + 3 : Nat) : Int) s3).length
      = max mem.length (a + 4) := by
  simp only [writeByteAt_length]
  omega

theorem quadWrite_getD (mem : List String) (a : Nat) (s0 s1 s2 s3 : String) :
    (writeByteAt (writeByteAt (writeByteAt (writeByteAt mem (a : Int) s0)
      ((a + 1 : Nat) : Int) s1) ((a + 2 : Nat) : Int) s2) ((a + 3 : Nat) : Int) s3).getD a "" = s0
    ∧ (writeByteAt (writeByteAt (writeByteAt (writeByteAt mem (a : Int) s0)
      ((a + 1 : Nat) : Int) s1) ((a + 2 : Nat) : Int) s2) ((a + 3 : Nat) : Int) s3).getD (a + 1) "" = s1
    ∧ (writeByteAt (writeByteAt (writeByteAt (writeByteAt mem (a : Int) s0)
      ((a + 1 : Nat) : Int) s1) ((a + 2 : Nat) : Int) s2) ((a + 3 : Nat) : Int) s3).getD (a + 2) "" = s2
    ∧ (writeByteAt (writeByteAt (writeByteAt (writeByteAt mem (a : Int) s0)
      ((a + 1 : Nat) : Int) s1) ((a + 2 : Nat) : Int) s2) ((a + 3 : Nat) : Int) s3).getD (a + 3) "" = s3 := by
  refine ⟨?_, ?_, ?_, ?_⟩
  · rw [writeByteAt_getD_other _ _ _ _ _ (by simp only [writeByteAt_length]; omega) (by omega),
        writeByteAt_getD_other _ _ _ _ _ (by simp only [writeByteAt_length]; omega) (by omega),
        writeByteAt_getD_other _ _ _ _ _ (by simp only [writeByteAt_length]; omega) (by omega),
        writeByteAt_getD_self]
  · rw [writeByteAt_getD_other _ _ _ _ _ (by simp only [writeByteAt_length]; omega) (by omega),
        writeByteAt_getD_other _ _ _ _ _ (by simp only [writeByteAt_length]; omega) (by omega),
        writeByteAt_getD_self]
  · rw [writeByteAt_getD_other _ _ _ _ _ (by simp only [writeByteAt_length]; omega) (by omega),
        writeByteAt_getD_self]
  · rw [writeByteAt_getD_self]

theorem readInstr_ok4 (mem : List String) (a : Int) (b0 b1 b2 b3 : Nat)
    (h0 : memByte mem a = .ok b0) (h1 : memByte mem (a + 1) = .ok b1)
    (h2 : memByte mem (a + 2) = .ok b2) (h3 : memByte mem (a + 3) = .ok b3) :
    readInstr mem a = .ok ((((((((0 <<< 8) ||| (b0 &&& 0xFF)) <<< 8) ||| (b1 &&& 0xFF)) <<< 8)
      ||| (b2 &&& 0xFF)) <<< 8 ||| (b3 &&& 0xFF)) &&& 0xFFFFFFFF) := by
  unfold readInstr
  rw [h0, h1, h2, h3]
  rfl

theorem store_then_load (mem : List String) (a w : Nat) :
    readInstr (writeDataMem mem (a : Int) w) (a : Int) = .ok (w % 4294967296) := by
  have hlt : ∀ x : Nat, x &&& 0xFF < 256 := fun x => by rw [and_mask8]; omega
  have e1 : (a : Int) + 1 = ((a + 1 : Nat) : Int) := by push_cast; ring
  have e2 : (a : Int) + 2 = ((a + 2 : Nat) : Int) := by push_cast; ring
  have e3 : (a : Int) + 3 = ((a + 3 : Nat) : Int) := by push_cast; ring
  have hq := writeDataMem_eq_quad mem a w
  obtain ⟨g0, g1, g2, g3⟩ := quadWrite_getD mem a
    (format08b (((w &&& 0xFFFFFFFF) >>> 24) &&& 0xFF))
    (format08b (((w &&& 0xFFFFFFFF) >>> 16) &&& 0xFF))
    (format08b (((w &&& 0xFFFFFFFF) >>> 8) &&& 0xFF))
    (format08b ((w &&& 0xFFFFFFFF) &&& 0xFF))
  have glen := quadWrite_length mem a
    (format08b (((w &&& 0xFFFFFFFF) >>> 24) &&& 0xFF))
    (format08b (((w &&& 0xFFFFFFFF) >>> 16) &&& 0xFF))
    (format08b (((w &&& 0xFFFFFFFF) >>> 8) &&& 0xFF))
    (format08b ((w &&& 0xFFFFFFFF) &&& 0xFF))
  rw [hq]
  have m0 : memByte (writeByteAt (writeByteAt (writeByteAt (writeByteAt mem (a : Int)
      (format08b (((w &&& 0xFFFFFFFF) >>> 24) &&& 0xFF)))
      ((a + 1 : Nat) : Int) (format08b (((w &&& 0xFFFFFFFF) >>> 16) &&& 0xFF)))
      ((a + 2 : Nat) : Int) (format08b (((w &&& 0xFFFFFFFF) >>> 8) &&& 0xFF)))
      ((a + 3 : Nat) : Int) (format08b ((w &&& 0xFFFFFFFF) &&& 0xFF))) (a : Int)
      = .ok (((w &&& 0xFFFFFFFF) >>> 24) &&& 0xFF) := by
    rw [memByte_in _ _ (by rw [glen]; omega), g0, byteToInt_format08b _ (hlt _)]
  have m1 : memByte (writeByteAt (writeByteAt (writeByteAt (writeByteAt mem (a : Int)
      (format08b (((w &&& 0xFFFFFFFF) >>> 24) &&& 0xFF)))
      ((a + 1 : Nat) : Int) (format08b (((w &&& 0xFFFFFFFF) >>> 16) &&& 0xFF)))
      ((a + 2 : Nat) : Int) (format08b (((w &&& 0xFFFFFFFF) >>> 8) &&& 0xFF)))
      ((a + 3 : Nat) : Int) (format08b ((w &&& 0xFFFFFFFF) &&& 0xFF))) ((a : Int) + 1)
      = .ok (((w &&& 0xFFFFFFFF) >>> 16) &&& 0xFF) := by
    rw [e1, memByte_in _ _ (by rw [glen]; omega), g1, byteToInt_format08b _ (hlt _)]
  have m2 : memByte (writeByteAt (writeByteAt (writeByteAt (writeByteAt mem (a : Int)
      (format08b (((w &&& 0xFFFFFFFF) >>> 24) &&& 0xFF)))
      ((a + 1 : Nat) : Int) (format08b (((w &&& 0xFFFFFFFF) >>> 16) &&& 0xFF)))
      ((a + 2 : Nat) : Int) (format08b (((w &&& 0xFFFFFFFF) >>> 8) &&& 0xFF)))
      ((a + 3 : Nat) : Int) (format08b ((w &&& 0xFFFFFFFF) &&& 0xFF))) ((a : Int) + 2)
      = .ok (((w &&& 0xFFFFFFFF) >>> 8) &&& 0xFF) := by
    rw [e2, memByte_in _ _ (by rw [glen]; omega), g2, byteToInt_format08b _ (hlt _)]
  have m3 : memByte (writeByteAt (writeByteAt (writeByteAt (writeByteAt mem (a : Int)
      (format08b (((w &&& 0xFFFFFFFF) >>> 24) &&& 0xFF)))
      ((a + 1 : Nat) : Int) (format08b (((w &&& 0xFFFFFFFF) >>> 16) &&& 0xFF)))
      ((a + 2 : Nat) : Int) (format08b (((w &&& 0xFFFFFFFF) >>> 8) &&& 0xFF)))
      ((a + 3 : Nat) : Int) (format08b ((w &&& 0xFFFFFFFF) &&& 0xFF))) ((a : Int) + 3)
      = .ok ((w &&& 0xFFFFFFFF) &&& 0xFF) := by
    rw [e3, memByte_in _ _ (by rw [glen]; omega), g3, byteToInt_format08b _ (hlt _)]
  rw [readInstr_ok4 _ _ _ _ _ _ m0 m1 m2 m3]
  congr 1
  have hself : ∀ x : Nat, (x &&& 0xFF) &&& 0xFF = x &&& 0xFF := fun x => by
    rw [and_mask8 (x &&& 0xFF), Nat.mod_eq_of_lt (hlt x)]
  rw [hself, hself, hself, hself, Nat.zero_shiftLeft, Nat.zero_or,
      shl8_or _ _ (hlt _), shl8_or _ _ (hlt _), shl8_or _ _ (hlt _)]
  have d0 : ((w &&& 0xFFFFFFFF) >>> 24) &&& 0xFF = (w % 4294967296) / 16777216 % 256 := by
    rw [and_mask8, Nat.shiftRight_eq_div_pow, and_mask32]
  have d1 : ((w &&& 0xFFFFFFFF) >>> 16) &&& 0xFF = (w % 4294967296) / 65536 % 256 := by
    rw [and_mask8, Nat.shiftRight_eq_div_pow, and_mask32]
  have d2 : ((w &&& 0xFFFFFFFF) >>> 8) &&& 0xFF = (w % 4294967296) / 256 % 256 := by
    rw [and_mask8, Nat.shiftRight_eq_div_pow, and_mask32]
  have d3 : (w &&& 0xFFFFFFFF) &&& 0xFF = (w % 4294967296) % 256 := by
    rw [and_mask8, and_mask32]
  rw [d0, d1, d2, d3, and_mask32]
  omega

theorem ssStep_halted_cap (imem : List String) (s s' : SSState)
    (h : ssStep imem s = .ok s') (hc : 100000 ≤ s'.cycle) : s'.halted = true := by
  unfold ssStep at h
  simp only [] at h
  split at h
  · injection h with h
    subst h
    rfl
  · split at h
    · exact absurd h (by simp)
    · split at h
      · injection h with h
        subst h
        rfl
      · split at h
        · exact absurd h (by simp)
        · injection h with h
          subst h
          simp only [Bool.or_eq_true, decide_eq_true_eq]
          right
          exact hc

theorem ssStep_rf_zero (imem : List String) (s s' : SSState)
    (h : ssStep imem s = .ok s') (h0 : s.rf.getD 0 0 = 0) : s'.rf.getD 0 0 = 0 := by
  have hw : ∀ (rf : List Nat) (a : Int) (d : Nat), rf.getD 0 0 = 0 → (writeRF rf a d).getD 0 0 = 0 := by
    intro rf a d hrf
    unfold writeRF
    split
    · exact hrf
    · split
      · exact hrf
      · rename_i ha hb
        rw [List.getD_eq_getElem?_getD, List.getElem?_set_ne (by omega), ← List.getD_eq_getElem?_getD]
        exact hrf
  unfold ssStep at h
  simp only [] at h
  split at h
  · injection h with h
    subst h
    exact h0
  · split at h
    · exact absurd h (by simp)
    · split at h
      · injection h with h
        subst h
        exact h0
      · split at h
        · exact absurd h (by simp)
        · injection h with h
          subst h
          simp only []
          split
          · exact hw _ _ _ h0
          · exact h0

theorem writeRF_getD_zero (rf : List Nat) (a : Int) (d : Nat)
    (hrf : rf.getD 0 0 = 0) : (writeRF rf a d).getD 0 0 = 0 := by
  unfold writeRF
  split
  · exact hrf
  · split
    · exact hrf
    · rename_i ha hb
      rw [List.getD_eq_getElem?_getD, List.getElem?_set_ne (by omega), ← List.getD_eq_getElem?_getD]
      exact hrf

theorem fsStep_parts (imem : List String) (s s' : FSState) (h : fsStep imem s = .ok s') :
    s'.rf = fsWBrf s ∧ s'.cycle = s.cycle + 1 ∧
    s'.halted = ((if s.ifSt.nop && s.idSt.nop && s.exSt.nop && s.memSt.nop && s.wbSt.nop
        then true else s.halted) || decide (maxCycles ≤ s.cycle + 1)) := by
  unfold fsStep at h
  simp only [] at h
  split at h
  · exact absurd h (by simp)
  · split at h
    · exact absurd h (by simp)
    · injection h with h
      subst h
      exact ⟨rfl, rfl, rfl⟩

theorem fsStep_rf_zero (imem : List String) (s s' : FSState)
    (h : fsStep imem s = .ok s') (h0 : s.rf.getD 0 0 = 0) : s'.rf.getD 0 0 = 0 := by
  rw [(fsStep_parts imem s s' h).1]
  unfold fsWBrf
  split
  · exact writeRF_getD_zero _ _ _ h0
  · exact h0

theorem fsStep_halted_cap (imem : List String) (s s' : FSState)
    (h : fsStep imem s = .ok s') (hc : 100000 ≤ s'.cycle) : s'.halted = true := by
  obtain ⟨-, hcy, hh⟩ := fsStep_parts imem s s' h
  rw [hh]
  simp only [Bool.or_eq_true, decide_eq_true_eq]
  right
  rw [← hcy]
  exact hc

theorem ssExec_undef (dmem : List String) (PC instr rs1v rs2v : Nat)
    (h33 : instr &&& 0x7f ≠ 0x33) (h13 : instr &&& 0x7f ≠ 0x13) (h03 : instr &&& 0x7f ≠ 0x03)
    (h23 : instr &&& 0x7f ≠ 0x23) (h63 : instr &&& 0x7f ≠ 0x63) (h6f : instr &&& 0x7f ≠ 0x6f) :
    ssExec dmem PC instr rs1v rs2v = .ok (false, 0, (PC + 4) &&& 0xFFFFFFFF, dmem) := by
  unfold ssExec
  simp only []
  rw [if_neg h33, if_neg h13, if_neg (fun hc => h03 hc.1), if_neg (fun hc => h23 hc.1),
      if_neg h63, if_neg h6f]

theorem ssStep_undef (imem : List String) (s s' : SSState) (instr : Nat)
    (hpc : s.pc < imem.length)
    (hrd : readInstr imem (s.pc : Int) = .ok instr)
    (h33 : instr &&& 0x7f ≠ 0x33) (h13 : instr &&& 0x7f ≠ 0x13) (h03 : instr &&& 0x7f ≠ 0x03)
    (h23 : instr &&& 0x7f ≠ 0x23) (h63 : instr &&& 0x7f ≠ 0x63) (h6f : instr &&& 0x7f ≠ 0x6f)
    (h7f : instr &&& 0x7f ≠ 0x7f)
    (hstep : ssStep imem s = .ok s') :
    s'.rf = s.rf ∧ s'.dmem = s.dmem ∧ s'.pc = (s.pc + 4) &&& 0xFFFFFFFF
    ∧ s'.cycle = s.cycle + 1
    ∧ s'.halted = (s.halted || decide (maxCycles ≤ s.cycle + 1)) := by
  unfold ssStep at hstep
  simp only [] at hstep
  rw [if_neg (by omega), hrd] at hstep
  simp only [] at hstep
  rw [if_neg h7f] at hstep
  rw [ssExec_undef _ _ _ _ _ h33 h13 h03 h23 h63 h6f] at hstep
  simp only [] at hstep
  injection hstep with hstep
  subst hstep
  refine ⟨?_, rfl, rfl, rfl, rfl⟩
  simp

theorem ssStep_halt_path (imem : List String) (s s' : SSState) (instr : Nat)
    (hpc : s.pc < imem.length)
    (hrd : readInstr imem (s.pc : Int) = .ok instr)
    (h7f : instr &&& 0x7f = 0x7f)
    (hstep : ssStep imem s = .ok s') :
    s'.snapshots = s.snapshots ++ [(s.cycle, s.pc, true), (s.cycle + 1, s.pc, true)]
    ∧ s'.nop = true ∧ s'.halted = true ∧ s'.pc = s.pc ∧ s'.cycle = s.cycle + 2
    ∧ s'.retired = s.retired + 1 := by
  unfold ssStep at hstep
  simp only [] at hstep
  rw [if_neg (by omega), hrd] at hstep
  simp only [] at hstep
  rw [if_pos h7f] at hstep
  injection hstep with hstep
  subst hstep
  exact ⟨rfl, rfl, rfl, rfl, rfl, rfl⟩

theorem ssStep_retire (imem : List String) (s s' : SSState) (instr : Nat)
    (hpc : s.pc < imem.length)
    (hrd : readInstr imem (s.pc : Int) = .ok instr)
    (h7f : instr &&& 0x7f ≠ 0x7f)
    (hstep : ssStep imem s = .ok s') :
    s'.retired = s.retired + 1 := by
  unfold ssStep at hstep
  simp only [] at hstep
  rw [if_neg (by omega), hrd] at hstep
  simp only [] at hstep
  rw [if_neg h7f] at hstep
  split at hstep
  · exact absurd hstep (by simp)
  · injection hstep with hstep
    subst hstep
    rfl

theorem isBinChar_bitChar (b i : Nat) : isBinChar (bitChar b i) = true := by
  unfold bitChar
  split
  · rfl
  · rfl

theorem bin8_format08b (b : Nat) : bin8 (format08b b) = true := by
  unfold bin8 format08b
  simp [isBinChar_bitChar, String.length]

theorem dmemInit_length (lines : List String) (hl : lines.length ≤ 1000) :
    (dmemInit lines).length = 1000 := by
  unfold dmemInit
  rw [padTo_length]
  simp only [List.length_map]
  omega

theorem dmemInit_mem (lines : List String) (hb : ∀ l ∈ lines, bin8 (pyStrip l) = true) :
    ∀ l ∈ dmemInit lines, bin8 l = true := by
  intro l hlmem
  unfold dmemInit padTo at hlmem
  rcases List.mem_append.mp hlmem with hm | hm
  · obtain ⟨x, hx, hfx⟩ := List.mem_map.mp hm
    rw [← hfx]
    exact hb x hx
  · rw [List.eq_of_mem_replicate hm]
    decide

theorem writeByteAt_keep (mem : List String) (idx : Int) (str : String)
    (hlen : mem.length = 1000) (hmem : ∀ l ∈ mem, bin8 l = true)
    (hidx : idx < 1000) (hstr : bin8 str = true) :
    (writeByteAt mem idx str).length = 1000 ∧ ∀ l ∈ writeByteAt mem idx str, bin8 l = true := by
  unfold writeByteAt
  split
  · exact ⟨hlen, hmem⟩
  · rename_i hneg
    have hpad : padTo mem (idx.toNat + 1) = mem := by
      unfold padTo
      rw [show idx.toNat + 1 - mem.length = 0 by omega]
      simp
    rw [hpad]
    refine ⟨by rw [List.length_set]; exact hlen, ?_⟩
    intro l hl
    rcases List.mem_or_eq_of_mem_set hl with h | h
    · exact hmem l h
    · rw [h]
      exact hstr

theorem writeDataMem_keep (mem : List String) (a : Int) (w : Nat)
    (hlen : mem.length = 1000) (hmem : ∀ l ∈ mem, bin8 l = true) (ha : a + 3 < 1000) :
    (writeDataMem mem a w).length = 1000 ∧ ∀ l ∈ writeDataMem mem a w, bin8 l = true := by
  unfold writeDataMem
  simp only []
  obtain ⟨l0, m0⟩ := writeByteAt_keep mem a _ hlen hmem (by omega) (bin8_format08b _)
  obtain ⟨l1, m1⟩ := writeByteAt_keep _ (a + 1) _ l0 m0 (by omega) (bin8_format08b _)
  obtain ⟨l2, m2⟩ := writeByteAt_keep _ (a + 2) _ l1 m1 (by omega) (bin8_format08b _)
  exact writeByteAt_keep _ (a + 3) _ l2 m2 (by omega) (bin8_format08b _)

theorem foldl_writes_keep (ws : List (Int × Nat)) :
    ∀ mem : List String, mem.length = 1000 → (∀ l ∈ mem, bin8 l = true) →
    (∀ p ∈ ws, p.1 + 3 < 1000) →
    ((ws.foldl (fun m p => writeDataMem m p.1 p.2) mem).length = 1000
     ∧ ∀ l ∈ ws.foldl (fun m p => writeDataMem m p.1 p.2) mem, bin8 l = true) := by
  induction ws with
  | nil => exact fun mem h1 h2 _ => ⟨h1, h2⟩
  | cons p rest ih =>
      intro mem h1 h2 hw
      simp only [List.foldl_cons]
      obtain ⟨g1, g2⟩ := writeDataMem_keep mem p.1 p.2 h1 h2 (hw p (by simp))
      exact ih _ g1 g2 (fun q hq => hw q (by simp [hq]))

theorem byteToInt_lt (s : String) (v : Nat) (h : byteToInt s = .ok v) : v < 256 := by
  unfold byteToInt at h
  split at h
  · injection h with h
    omega
  · simp only [] at h
    split at h
    · injection h with h
      rw [← h, and_mask8]
      omega
    · split at h
      · injection h with h
        rw [← h]
        rename_i v2 hv2
        omega
      · exact absurd h (by simp)

theorem memByte_ok_of_wf (mem : List String)
    (hwf : ∀ l ∈ mem, (byteToInt l).isOk = true) (idx : Int) :
    ∃ b, memByte mem idx = .ok b ∧ b < 256 := by
  unfold memByte
  split
  · exact ⟨0, rfl, by omega⟩
  · rename_i hcond
    have hidx : idx.toNat < mem.length := by omega
    have hm : mem.getD idx.toNat "" ∈ mem := by
      rw [List.getD_eq_getElem?_getD, List.getElem?_eq_getElem hidx]
      exact List.getElem_mem hidx
    have := hwf _ hm
    cases hb : byteToInt (mem.getD idx.toNat "") with
    | error e => rw [hb] at this; exact absurd this (by simp [Except.isOk, Except.toBool])
    | ok b => exact ⟨b, rfl, byteToInt_lt _ b hb⟩

theorem memByte_out (mem : List String) (idx : Int)
    (h : idx < 0 ∨ (mem.length : Int) ≤ idx) : memByte mem idx = .ok 0 := by
  unfold memByte
  rw [if_pos h]

theorem writeByteAt_neg (mem : List String) (idx : Int) (s : String) (h : idx < 0) :
    writeByteAt mem idx s = mem := by
  unfold writeByteAt
  rw [if_pos h]

theorem writeByteAt_length_ge (mem : List String) (idx : Int) (s : String) :
    mem.length ≤ (writeByteAt mem idx s).length := by
  unfold writeByteAt
  split
  · exact le_refl _
  · rw [List.length_set, padTo_length]
    omega

/-! ### Claim theorems -/

/-- C1 counterexample: storing the word 0x01020304 at address 0 places the
*most* significant byte 0x01 at the lowest address (so the store is
big-endian, not little-endian), and loading the word back returns 0x01020304
itself, not the byte-swapped 0x04030201 the claim predicts. -/
theorem C1_counterexample :
    readInstr (writeDataMem (List.replicate 8 "00000000") 0 0x01020304) 0 = .ok 0x01020304
    ∧ (writeDataMem (List.replicate 8 "00000000") 0 0x01020304).getD 0 "" = "00000001"
    ∧ (0x01020304 : Nat) ≠ 0x04030201 :=
  ⟨rfl, rfl, by decide⟩

/-- C1 (amended): `writeDataMem` stores the four bytes of W in big-endian
order (MSB at the lowest address), matching the big-endian `readInstr`, so
for every memory image, every non-negative address and every word, a store
followed by a load from the same address returns `W mod 2^32` unchanged —
there is no byte swap. -/
theorem C1_theorem (mem : List String) (a w : Nat) :
    readInstr (writeDataMem mem (a : Int) w) (a : Int) = .ok (w % 4294967296)
    ∧ (writeDataMem mem (a : Int) w).getD a ""
        = format08b (((w &&& 0xFFFFFFFF) >>> 24) &&& 0xFF) := by
  refine ⟨store_then_load mem a w, ?_⟩
  rw [writeDataMem_eq_quad]
  exact (quadWrite_getD mem a _ _ _ _).1

/-- C2 (code bug): on the loadless program `ADDI x1, x1, 5 ; HALT` with
identically initialised data memories, the single-stage core halts with
x1 = 5 but the five-stage core halts with x1 = 10: the initialisation
`fetch_PC = PC = 0` makes the ID stage consume the instruction at
`fetch_PC = 0` in cycle 0 while IF re-fetches address 0 in the same cycle,
so the first instruction is decoded and retired twice, the second time with
its own result forwarded into rs1.  The final register files differ, against
the forwarding-equivalence claim. -/
theorem C2_theorem :
    (ssRun 40 imemAddiHalt (ssInit dmemZero)).toOption.map (fun st => readRF st.rf 1) = some 5
    ∧ (fsRun 40 imemAddiHalt (fsInit dmemZero)).toOption.map (fun st => readRF st.rf 1) = some 10 :=
  ⟨rfl, rfl⟩

/-- C3 (code bug): on `LW x4, 0(x0) ; ADDI x5, x4, 1 ; HALT` with the data
word 7 at address 0, the single-stage core ends with x4 = 7, x5 = 8, but the
five-stage core ends with x5 = 1: the load-use stall inserts its ID/EX
bubble and held IF/ID latch (main.py lines 609-630) only for the decode
section at line 662 to overwrite both again, so the dependent `ADDI`
proceeds with the stale register value 0 instead of the loaded 7. -/
theorem C3_theorem :
    (ssRun 40 imemLoadUse (ssInit dmemLoadUse)).toOption.map
      (fun st => (readRF st.rf 4, readRF st.rf 5)) = some (7, 8)
    ∧ (fsRun 40 imemLoadUse (fsInit dmemLoadUse)).toOption.map
      (fun st => (readRF st.rf 4, readRF st.rf 5)) = some (7, 1) :=
  ⟨rfl, rfl⟩

/-- C4 counterexample: a store at address 1000 on the freshly initialised
1000-byte data memory extends it, and `outputDataMem` dumps every live
line, so the dump has 1004 lines — not exactly 1000 as claimed. -/
theorem C4_counterexample :
    (outputDataMem (writeDataMem (dmemInit []) 1000 0)).length = 1004 := rfl

/-- C4 (amended): if every input line of `dmem.txt` strips to an 8-character
binary string, the input has at most 1000 lines, and every executed store
touches only byte addresses A with A+3 < 1000, then the final dump has
exactly 1000 lines, each an 8-character binary string. -/
theorem C4_theorem (lines : List String) (ws : List (Int × Nat))
    (hl : lines.length ≤ 1000)
    (hb : ∀ l ∈ lines, bin8 (pyStrip l) = true)
    (hw : ∀ p ∈ ws, p.1 + 3 < 1000) :
    (outputDataMem (ws.foldl (fun m p => writeDataMem m p.1 p.2) (dmemInit lines))).length = 1000
    ∧ ∀ l ∈ outputDataMem (ws.foldl (fun m p => writeDataMem m p.1 p.2) (dmemInit lines)),
        bin8 l = true := by
  unfold outputDataMem
  exact foldl_writes_keep ws (dmemInit lines) (dmemInit_length lines hl) (dmemInit_mem lines hb) hw

/-- C4 witness: the amended statement at a concrete one-line image with one
in-range store. -/
theorem C4_witness :
    (outputDataMem ([((0 : Int), (5 : Nat))].foldl (fun m p => writeDataMem m p.1 p.2)
      (dmemInit ["00000000"]))).length = 1000
    ∧ ∀ l ∈ outputDataMem ([((0 : Int), (5 : Nat))].foldl (fun m p => writeDataMem m p.1 p.2)
      (dmemInit ["00000000"])), bin8 l = true :=
  C4_theorem ["00000000"] [(0, 5)] (by decide) (by decide) (by decide)

/-- C5: if the fetched instruction's opcode is none of 0x33, 0x13, 0x03,
0x23, 0x63, 0x6F and not HALT 0x7F, the single-stage step leaves the
register file and data memory unchanged, advances the PC by 4, and does not
terminate the run (the halt flag only reflects the pre-existing flag or the
100000-cycle safety cap). -/
theorem C5_theorem (imem : List String) (s s' : SSState) (instr : Nat)
    (hpc : s.pc < imem.length)
    (hrd : readInstr imem (s.pc : Int) = .ok instr)
    (h33 : instr &&& 0x7f ≠ 0x33) (h13 : instr &&& 0x7f ≠ 0x13) (h03 : instr &&& 0x7f ≠ 0x03)
    (h23 : instr &&& 0x7f ≠ 0x23) (h63 : instr &&& 0x7f ≠ 0x63) (h6f : instr &&& 0x7f ≠ 0x6f)
    (h7f : instr &&& 0x7f ≠ 0x7f)
    (hstep : ssStep imem s = .ok s') :
    s'.rf = s.rf ∧ s'.dmem = s.dmem ∧ s'.pc = (s.pc + 4) &&& 0xFFFFFFFF
    ∧ s'.cycle = s.cycle + 1
    ∧ s'.halted = (s.halted || decide (maxCycles ≤ s.cycle + 1)) :=
  ssStep_undef imem s s' instr hpc hrd h33 h13 h03 h23 h63 h6f h7f hstep

/-- C5 witness: one step on the unsupported opcode 0x37 (LUI). -/
theorem C5_witness :
    ssUndefFinal.rf = (ssInit dmemZero).rf ∧ ssUndefFinal.dmem = (ssInit dmemZero).dmem
    ∧ ssUndefFinal.pc = 4 ∧ ssUndefFinal.cycle = 1 ∧ ssUndefFinal.halted = false :=
  C5_theorem imemUndef (ssInit dmemZero) ssUndefFinal 0x37 (by decide) rfl
    (by decide) (by decide) (by decide) (by decide) (by decide) (by decide) (by decide) rfl

/-- C6 counterexample: stepping the single-stage core with its cycle counter
at 9999 reaches cycle 10000 without setting the halt flag — the claimed
10000-cycle abort for the single-stage core does not exist. -/
theorem C6_counterexample :
    ssStep imemUndef ssAt9999 = .ok ssAfter9999
    ∧ ssAfter9999.cycle = 10000 ∧ ssAfter9999.halted = false :=
  ⟨rfl, rfl, rfl⟩

/-- C6 (amended): both cores share the single safety cap
`Core.max_cycles = 100000`; each core's step sets the halt flag whenever the
cycle counter reaches 100000. -/
theorem C6_theorem :
    maxCycles = 100000
    ∧ (∀ (imem : List String) (s s' : SSState),
        ssStep imem s = .ok s' → 100000 ≤ s'.cycle → s'.halted = true)
    ∧ (∀ (imem : List String) (t t' : FSState),
        fsStep imem t = .ok t' → 100000 ≤ t'.cycle → t'.halted = true) :=
  ⟨rfl, ssStep_halted_cap, fsStep_halted_cap⟩

/-- C6 witness: both cores halt when stepping from cycle 99999 to 100000. -/
theorem C6_witness :
    ssAfter99999.halted = true ∧ fsAfter99999.halted = true :=
  ⟨C6_theorem.2.1 imemUndef ssAt99999 ssAfter99999 rfl (by decide),
   C6_theorem.2.2 imemAddiHalt fsAt99999 fsAfter99999 rfl (by decide)⟩

/-- C7 counterexample: the line "abc" parses as neither an 8-character
binary string nor a 1-to-2-hex-digit literal, yet the byte parser accepts it
(Python `int("abc", 16) & 0xFF` = 188) instead of failing the run. -/
theorem C7_counterexample : byteToInt "abc" = .ok 188 := rfl

/-- C7 (amended): a nonempty byte line that is neither an 8-character binary
string (after stripping) nor a valid Python base-16 literal makes the byte
parser — and with it the run — fail with the `ValueError` message; a line
that is a valid base-16 literal of *any* length is instead accepted and
masked to its low 8 bits. -/
theorem C7_theorem :
    (∀ s : String, s ≠ "" → bin8 (pyStrip s) = false →
        pyInt16 (stripHexMark ((pyStrip s).data.map Char.toLower)) = none →
        byteToInt s = .error "invalid literal for int() with base 16")
    ∧ (∀ (s : String) (v : Int), s ≠ "" → bin8 (pyStrip s) = false →
        pyInt16 (stripHexMark ((pyStrip s).data.map Char.toLower)) = some v →
        byteToInt s = .ok ((v % 256).toNat)) := by
  constructor
  · intro s hne hnb hno
    unfold byteToInt
    rw [if_neg hne]
    simp only []
    rw [if_neg (by simp [hnb]), hno]
  · intro s v hne hnb hsome
    unfold byteToInt
    rw [if_neg hne]
    simp only []
    rw [if_neg (by simp [hnb]), hsome]

/-- C7 witness: "zz" fails the run; "abc" is accepted as 188. -/
theorem C7_witness :
    byteToInt "zz" = .error "invalid literal for int() with base 16"
    ∧ byteToInt "abc" = .ok ((2748 % 256 : Int)).toNat :=
  ⟨C7_theorem.1 "zz" (by decide) (by decide) (by decide),
   C7_theorem.2 "abc" 2748 (by decide) (by decide) (by decide)⟩

/-- C8: when the single-stage core fetches a HALT (opcode 0x7F) at an
in-range address P, the step appends exactly two state snapshots at
consecutive cycle numbers, both with `IF.nop = True` and `IF.PC = P`, sets
the halt flag, keeps the PC pinned, and adds exactly one retirement for the
HALT itself; and every non-HALT in-range step adds exactly one retirement,
so the final counter is the number of executed non-terminating instructions
plus one. -/
theorem C8_theorem (imem : List String) (s s' : SSState) (instr : Nat)
    (hpc : s.pc < imem.length)
    (hrd : readInstr imem (s.pc : Int) = .ok instr)
    (h7f : instr &&& 0x7f = 0x7f)
    (hstep : ssStep imem s = .ok s') :
    (s'.snapshots = s.snapshots ++ [(s.cycle, s.pc, true), (s.cycle + 1, s.pc, true)]
     ∧ s'.nop = true ∧ s'.halted = true ∧ s'.pc = s.pc ∧ s'.cycle = s.cycle + 2
     ∧ s'.retired = s.retired + 1)
    ∧ (∀ (t t' : SSState) (i2 : Nat), t.pc < imem.length →
        readInstr imem (t.pc : Int) = .ok i2 → i2 &&& 0x7f ≠ 0x7f →
        ssStep imem t = .ok t' → t'.retired = t.retired + 1) :=
  ⟨ssStep_halt_path imem s s' instr hpc hrd h7f hstep,
   fun t t' i2 hp hr hn hs => ssStep_retire imem t t' i2 hp hr hn hs⟩

/-- C8 witness: a HALT at address 0. -/
theorem C8_witness :
    (ssHaltFinal.snapshots = [] ++ [(0, 0, true), (0 + 1, 0, true)]
     ∧ ssHaltFinal.nop = true ∧ ssHaltFinal.halted = true ∧ ssHaltFinal.pc = 0
     ∧ ssHaltFinal.cycle = 0 + 2 ∧ ssHaltFinal.retired = 0 + 1)
    ∧ (∀ (t t' : SSState) (i2 : Nat), t.pc < imemHalt.length →
        readInstr imemHalt (t.pc : Int) = .ok i2 → i2 &&& 0x7f ≠ 0x7f →
        ssStep imemHalt t = .ok t' → t'.retired = t.retired + 1) :=
  C8_theorem imemHalt (ssInit dmemZero) ssHaltFinal 0x7F (by decide) rfl (by decide) rfl

/-- C9: reads of register 0 yield 0 (out-of-range indices also read 0);
writes to register 0 and out-of-range writes are dropped; writes through
`writeRF` keep register 0 at 0; and a step of either core preserves
"register 0 holds 0", so it holds after every cycle in both cores. -/
theorem C9_theorem :
    (∀ (rf : List Nat) (a : Int), a < 0 ∨ 32 ≤ a → readRF rf a = 0)
    ∧ (∀ (rf : List Nat) (a : Int) (d : Nat), a = 0 ∨ a < 0 ∨ 32 ≤ a → writeRF rf a d = rf)
    ∧ (∀ rf : List Nat, rf.getD 0 0 = 0 → readRF rf 0 = 0)
    ∧ (∀ (rf : List Nat) (a : Int) (d : Nat), rf.getD 0 0 = 0 → (writeRF rf a d).getD 0 0 = 0)
    ∧ (∀ (imem : List String) (s s' : SSState),
        ssStep imem s = .ok s' → s.rf.getD 0 0 = 0 → s'.rf.getD 0 0 = 0)
    ∧ (∀ (imem : List String) (s s' : FSState),
        fsStep imem s = .ok s' → s.rf.getD 0 0 = 0 → s'.rf.getD 0 0 = 0) := by
  refine ⟨?_, ?_, ?_, writeRF_getD_zero, ssStep_rf_zero, fsStep_rf_zero⟩
  · intro rf a h
    unfold readRF
    rw [if_pos h]
  · intro rf a d h
    unfold writeRF
    rcases h with h | h
    · rw [if_pos h]
    · rw [if_neg (by omega), if_pos h]
  · intro rf h
    unfold readRF
    rw [if_neg (by omega)]
    rw [List.getD_eq_getElem?_getD] at h
    simp [h]

/-- C9 witness: concrete reads, writes and one step of each core. -/
theorem C9_witness :
    readRF initRF 40 = 0 ∧ writeRF initRF 0 7 = initRF ∧ readRF initRF 0 = 0
    ∧ (writeRF initRF 5 7).getD 0 0 = 0
    ∧ ssUndefFinal.rf.getD 0 0 = 0 ∧ fsFirstStep.rf.getD 0 0 = 0 :=
  ⟨C9_theorem.1 initRF 40 (Or.inr (by decide)),
   C9_theorem.2.1 initRF 0 7 (Or.inl rfl),
   C9_theorem.2.2.1 initRF (by decide),
   C9_theorem.2.2.2.1 initRF 5 7 (by decide),
   C9_theorem.2.2.2.2.1 imemUndef (ssInit dmemZero) ssUndefFinal rfl (by decide),
   C9_theorem.2.2.2.2.2 imemAddiHalt (fsInit dmemZero) fsFirstStep rfl (by decide)⟩

/-- C10 counterexample: a word read that touches a malformed byte line
raises (the uncaught `ValueError` of the byte parser), so `readInstr` is not
total on arbitrary loaded images. -/
theorem C10_counterexample :
    readInstr ["zz", "00000000", "00000000", "00000000"] 0
      = .error "invalid literal for int() with base 16" := rfl

/-- C10 (amended): provided every line of the memory image parses, word
access is total: `readInstr` returns a value below 2^32 for every integer
address (including negative ones), an address whose whole 4-byte window is
out of range reads as 0, and `writeDataMem` never fails — it is the
identity when all four byte indices are negative, never shrinks the memory,
and extends it to cover the last written byte index when that is
non-negative. -/
theorem C10_theorem (mem : List String) (a : Int) (w : Nat)
    (hwf : ∀ l ∈ mem, (byteToInt l).isOk = true) :
    (∃ v, readInstr mem a = .ok v ∧ v < 4294967296)
    ∧ (a + 3 < 0 ∨ (mem.length : Int) ≤ a → readInstr mem a = .ok 0)
    ∧ (a + 3 < 0 → writeDataMem mem a w = mem)
    ∧ mem.length ≤ (writeDataMem mem a w).length
    ∧ (0 ≤ a + 3 → (a + 3).toNat < (writeDataMem mem a w).length) := by
  refine ⟨?_, ?_, ?_, ?_, ?_⟩
  · obtain ⟨b0, h0, l0⟩ := memByte_ok_of_wf mem hwf a
    obtain ⟨b1, h1, l1⟩ := memByte_ok_of_wf mem hwf (a + 1)
    obtain ⟨b2, h2, l2⟩ := memByte_ok_of_wf mem hwf (a + 2)
    obtain ⟨b3, h3, l3⟩ := memByte_ok_of_wf mem hwf (a + 3)
    refine ⟨_, readInstr_ok4 mem a b0 b1 b2 b3 h0 h1 h2 h3, ?_⟩
    rw [and_mask32]
    omega
  · intro h
    rw [readInstr_ok4 mem a 0 0 0 0 (memByte_out _ _ (by omega)) (memByte_out _ _ (by omega))
      (memByte_out _ _ (by omega)) (memByte_out _ _ (by omega))]
    rfl
  · intro h
    unfold writeDataMem
    simp only []
    rw [writeByteAt_neg _ _ _ (by omega), writeByteAt_neg _ _ _ (by omega),
        writeByteAt_neg _ _ _ (by omega), writeByteAt_neg _ _ _ (by omega)]
  · unfold writeDataMem
    simp only []
    exact le_trans (writeByteAt_length_ge _ _ _) (le_trans (writeByteAt_length_ge _ _ _)
      (le_trans (writeByteAt_length_ge _ _ _) (writeByteAt_length_ge _ _ _)))
  · intro h
    unfold writeDataMem
    simp only []
    unfold writeByteAt
    rw [if_neg (by omega)]
    rw [List.length_set, padTo_length]
    omega

/-- C10 witness: a two-line image (one binary, one hex line) at a negative
address. -/
theorem C10_witness :
    (∃ v, readInstr ["00000000", "ff"] (-5) = .ok v ∧ v < 4294967296)
    ∧ ((-5 : Int) + 3 < 0 ∨ ((["00000000", "ff"] : List String).length : Int) ≤ -5 →
        readInstr ["00000000", "ff"] (-5) = .ok 0)
    ∧ ((-5 : Int) + 3 < 0 → writeDataMem ["00000000", "ff"] (-5) 3 = ["00000000", "ff"])
    ∧ (["00000000", "ff"] : List String).length ≤ (writeDataMem ["00000000", "ff"] (-5) 3).length
    ∧ (0 ≤ (-5 : Int) + 3 → ((-5 : Int) + 3).toNat < (writeDataMem ["00000000", "ff"] (-5) 3).length) :=
  C10_theorem ["00000000", "ff"] (-5) 3 (by decide)
